import Mathlib

/-!
Shallow embedding of the light-curate-data-service core logic.

Part 1 — the financial calculation engine (src/dist/web3.js, src/src/index.ts):
`getAppealCost`, `getAppealFundingStatus`, `fundAppeal`, `calculateDepositAmount`.

External on-chain reads (contract getters, arbitrator queries) are modelled as
pure input values gathered into structures: `DisputeInfo` holds what
`getRequestInfo`, `appealCost` and the three stake-multiplier getters return,
`RoundInfo` holds what `getRoundInfo` returns.  JavaScript `BigInt` arithmetic
on non-negative on-chain quantities is modelled as `Nat` (arbitrary precision,
truncating division = floor), with `Int` used where the source computes a
possibly negative `BigInt` difference before clamping.  Display-unit (ETH
string) fields, which the source derives from the wei fields by `fromWei`, are
not modelled; all claims are about base-unit (wei) values.  A thrown JS error
is modelled as `Except.error`; `Except.ok` carries the successful result, and
for `fundAppeal` the wei value attached to the submitted transaction.
-/

namespace LightCurate

/-- Error kinds of the financial engine (spec section 7 taxonomy; each
corresponds to a thrown `Error` in the source). -/
inductive TcrError where
  | notDisputed     -- "Item is not disputed, ..."
  | conversionError -- step 6 of getAppealCost fails when the ruling matched no branch
  | alreadyFunded   -- "Appeal for this side is already fully funded" / "This side ..."
  deriving DecidableEq, Repr

/-- The data `getAppealCost` reads from the chain before computing fees:
`getRequestInfo` fields (`disputed`, `ruling` as `parseInt` result,
`numberOfRounds`), the arbitrator's `appealCost` answer, and the registry's
three stake multipliers. -/
structure DisputeInfo where
  disputed : Bool
  ruling : Nat                 -- 0 = None, 1 = Accept, 2 = Reject
  numberOfRounds : Nat
  appealCostWei : Nat          -- arbitrator.appealCost(disputeID, extraData)
  sharedStakeMultiplier : Nat
  winnerStakeMultiplier : Nat
  loserStakeMultiplier : Nat
  deriving DecidableEq, Repr

/-- Result of `getAppealCost` (wei fields only; the ETH display strings are
derived from these by `fromWei` and are not modelled). -/
structure AppealCostResult where
  requesterAppealFeeWei : Nat
  challengerAppealFeeWei : Nat
  currentRuling : Nat
  deriving DecidableEq, Repr

/-- `MULTIPLIER_DIVISOR` from web3.js: 100% is 10000 in the contract. -/
def MULTIPLIER_DIVISOR : Nat := 10000

/-- web3.js `getAppealCost` (steps 2 and 5; the web3 plumbing of steps 1, 3, 4
is the oracle that filled in `DisputeInfo`).  If the request is not disputed it
throws; otherwise it branches on `currentRuling`, computing each side's stake
as `arbitrationCost * multiplier / MULTIPLIER_DIVISOR` in `BigInt` and each fee
as `arbitrationCost + stake`.  A ruling outside 0/1/2 leaves the fee variables
undefined and step 6's `fromWei` throws. -/
def getAppealCost (d : DisputeInfo) : Except TcrError AppealCostResult :=
  if !d.disputed then
    .error .notDisputed
  else
    let arbitrationCost := d.appealCostWei
    if d.ruling = 0 then
      let stake := arbitrationCost * d.sharedStakeMultiplier / MULTIPLIER_DIVISOR
      .ok { requesterAppealFeeWei := arbitrationCost + stake
            challengerAppealFeeWei := arbitrationCost + stake
            currentRuling := d.ruling }
    else if d.ruling = 1 then
      let requesterStake := arbitrationCost * d.winnerStakeMultiplier / MULTIPLIER_DIVISOR
      let challengerStake := arbitrationCost * d.loserStakeMultiplier / MULTIPLIER_DIVISOR
      .ok { requesterAppealFeeWei := arbitrationCost + requesterStake
            challengerAppealFeeWei := arbitrationCost + challengerStake
            currentRuling := d.ruling }
    else if d.ruling = 2 then
      let requesterStake := arbitrationCost * d.loserStakeMultiplier / MULTIPLIER_DIVISOR
      let challengerStake := arbitrationCost * d.winnerStakeMultiplier / MULTIPLIER_DIVISOR
      .ok { requesterAppealFeeWei := arbitrationCost + requesterStake
            challengerAppealFeeWei := arbitrationCost + challengerStake
            currentRuling := d.ruling }
    else
      .error .conversionError

/-- The data `getAppealFundingStatus` reads from `getRoundInfo` for the current
round: per-side paid amounts (`amountPaid[1]`, `amountPaid[2]`), per-side
funded flags (`hasPaid[1]`, `hasPaid[2]`) and the `appealed` flag. -/
structure RoundInfo where
  amountPaidRequesterWei : Nat
  amountPaidChallengerWei : Nat
  hasPaidRequester : Bool
  hasPaidChallenger : Bool
  appealed : Bool
  deriving DecidableEq, Repr

/-- Result of `getAppealFundingStatus` (wei fields only).  `roundIndex` is the
JS number `numberOfRounds - 1`, which can be negative, hence `Int`. -/
structure FundingStatus where
  requesterFunded : Bool
  challengerFunded : Bool
  requesterAmountPaidWei : Nat
  challengerAmountPaidWei : Nat
  requesterRemainingToFundWei : Nat
  challengerRemainingToFundWei : Nat
  appealed : Bool
  currentRuling : Nat
  roundIndex : Int
  deriving DecidableEq, Repr

/-- The source computes `remaining = BigInt(fee) - BigInt(paid)` and then keeps
it only when `> 0`, otherwise the string "0". -/
def clampRemaining (feeWei paidWei : Nat) : Nat :=
  if (feeWei : Int) - (paidWei : Int) > 0 then ((feeWei : Int) - (paidWei : Int)).toNat else 0

/-- web3.js `getAppealFundingStatus`: throws if not disputed, reads the current
round (index `numberOfRounds - 1`, delivered here as `round`), calls
`getAppealCost`, and clamps each side's `fee - paid` difference at zero. -/
def getAppealFundingStatus (d : DisputeInfo) (round : RoundInfo) :
    Except TcrError FundingStatus :=
  if !d.disputed then
    .error .notDisputed
  else
    match getAppealCost d with
    | .error e => .error e
    | .ok appealCosts =>
      .ok { requesterFunded := round.hasPaidRequester
            challengerFunded := round.hasPaidChallenger
            requesterAmountPaidWei := round.amountPaidRequesterWei
            challengerAmountPaidWei := round.amountPaidChallengerWei
            requesterRemainingToFundWei :=
              clampRemaining appealCosts.requesterAppealFeeWei round.amountPaidRequesterWei
            challengerRemainingToFundWei :=
              clampRemaining appealCosts.challengerAppealFeeWei round.amountPaidChallengerWei
            appealed := round.appealed
            currentRuling := d.ruling
            roundIndex := (d.numberOfRounds : Int) - 1 }

/-- web3.js `fundAppeal`: reads the funding status, rejects a side whose
`hasPaid` flag is set, determines the wei value to send — the user's amount
clamped down to the side's remaining requirement, or the remaining requirement
itself when no amount was given — rejects a zero value, and otherwise submits
the transaction with that value (`.ok value`).  `side` is 1 = Requester,
2 = Challenger; the source's `side === 1 ? ... : ...` sends any other side
down the challenger branch, which is kept as-is. -/
def fundAppeal (d : DisputeInfo) (round : RoundInfo) (side : Nat)
    (amountWei : Option Nat) : Except TcrError Nat :=
  match getAppealFundingStatus d round with
  | .error e => .error e
  | .ok fundingStatus =>
    if (side = 1 && fundingStatus.requesterFunded)
        || (side = 2 && fundingStatus.challengerFunded) then
      .error .alreadyFunded
    else
      let remainingNeededWei :=
        if side = 1 then fundingStatus.requesterRemainingToFundWei
        else fundingStatus.challengerRemainingToFundWei
      let amountToSendWei :=
        match amountWei with
        | some a => if a > remainingNeededWei then remainingNeededWei else a
        | none => remainingNeededWei
      if amountToSendWei = 0 then
        .error .alreadyFunded
      else
        .ok amountToSendWei

/-- `DepositInfo` wei field of `calculateDepositAmount` (index.ts / web3.js).
The ETH display strings (`depositAmount`, the `breakdown` entries) are derived
from these integers by `fromWei` and are not modelled. -/
structure DepositInfo where
  depositInWei : Nat
  baseDepositWei : Nat
  arbitrationCostWei : Nat
  challengePeriodDays : Nat
  deriving DecidableEq, Repr

/-- index.ts / web3.js `calculateDepositAmount`: the base deposit read is
`baseDepositResult ? baseDepositResult.toString() : "0"` (a missing result
becomes 0), and the total is `BigInt(baseDeposit) + BigInt(arbitrationCostWei)`
— unbounded integer addition. -/
def calculateDepositAmount (baseDepositResult : Option Nat)
    (arbitrationCostWei : Nat) (challengePeriodDays : Nat) : DepositInfo :=
  let baseDeposit := match baseDepositResult with
    | some v => v
    | none => 0
  let totalDepositWei := baseDeposit + arbitrationCostWei
  { depositInWei := totalDepositWei
    baseDepositWei := baseDeposit
    arbitrationCostWei := arbitrationCostWei
    challengePeriodDays := challengePeriodDays }

/-!
Part 2 — the item retrieval pipeline (src/src/graph.ts): `fetchItemsBatch`,
`fetchItems`, `fetchItemsById`, `fetchItemsByStatus`, the cache key and the
module-level cache map.

The indexer is modelled as an oracle `net : Nat → Option Int → NetResult`
giving the outcome of the n-th network call of a `fetchItems` run (0-based)
at the cursor the loop passes; the `AbortSignal` as `abortedAt : Nat → Bool`,
the value of `signal.aborted` at the check preceding the n-th batch.  The
cache `Map` is an association list threaded explicitly.  Items are modelled
with the fields the pipeline itself inspects (`latestRequestSubmissionTime`
already `parseInt`-ed to `Int`) plus the identifying ones; the remaining
GraphQL payload fields are opaque to the pipeline and omitted.
`maxBatches : Nat` is the loop bound `batchCount < maxBatches`; the source
default `Infinity` is represented by choosing the bound larger than any run
under discussion (every terminating run has a finite batch count).
-/

/-- A registry item as the pipeline sees it. -/
structure LItem where
  itemID : String
  status : String
  disputed : Bool
  latestRequestSubmissionTime : Int
  deriving DecidableEq, Repr

/-- `BATCH_SIZE` from graph.ts. -/
def BATCH_SIZE : Nat := 1000

/-- Outcome of one `fetch` + GraphQL decode in `makeGraphQLRequest`:
a successful `litems` payload, a thrown error (non-ok HTTP response, GraphQL
`errors` array, invalid data format), or a rejection whose `name` is
`AbortError`. -/
inductive NetResult where
  | ok (litems : List LItem)
  | thrownError
  | abortError
  deriving DecidableEq, Repr

/-- Outcome of `fetchItemsBatch`: either `{items, hasMore}` or a rethrown
error. -/
inductive BatchOutcome where
  | ok (items : List LItem) (hasMore : Bool)
  | thrown
  deriving DecidableEq, Repr

/-- graph.ts `fetchItemsBatch` on the response of its one network call:
on success `hasMore = (items.length == BATCH_SIZE)`; an `AbortError` is
swallowed into `{items: [], hasMore: false}`; any other error is rethrown. -/
def fetchItemsBatch (resp : NetResult) : BatchOutcome :=
  match resp with
  | .ok litems => .ok litems (litems.length == BATCH_SIZE)
  | .thrownError => .thrown
  | .abortError => .ok [] false

/-- Insertion of a string into a lexicographically sorted list (JS
`Array.prototype.sort` on strings). -/
def insertSorted (x : String) : List String → List String
  | [] => [x]
  | y :: ys => if x ≤ y then x :: y :: ys else y :: insertSorted x ys

/-- JS `values.sort()` for a string array. -/
def sortStrings (l : List String) : List String := l.foldr insertSorted []

/-- Insertion of a filter entry into a list of entries sorted by key
(JS `Object.entries(filters).sort()`). -/
def insertEntrySorted (x : String × List String) :
    List (String × List String) → List (String × List String)
  | [] => [x]
  | y :: ys => if x.1 ≤ y.1 then x :: y :: ys else y :: insertEntrySorted x ys

/-- `Object.entries(filters).sort()`. -/
def sortEntries (l : List (String × List String)) : List (String × List String) :=
  l.foldr insertEntrySorted []

/-- JS `registryAddress.toLowerCase()`. -/
def toLowerStr (s : String) : String := String.mk (s.data.map Char.toLower)

/-- graph.ts `generateCacheKey`: `chainId + "-" + registryAddress.toLowerCase()`,
extended, when a non-empty filter object is present, by the entries sorted by
key, each rendered `key:v1,v2,...` with its values sorted, joined by ";". -/
def generateCacheKey (chainId : Nat) (registryAddress : String)
    (filters : Option (List (String × List String))) : String :=
  let key := toString chainId ++ "-" ++ toLowerStr registryAddress
  match filters with
  | none => key
  | some entries =>
    if entries.isEmpty then key
    else
      let filterString := String.intercalate ";"
        ((sortEntries entries).map
          (fun p => p.1 ++ ":" ++ String.intercalate "," (sortStrings p.2)))
      key ++ "-" ++ filterString

/-- The module-level `itemsCache` map, threaded explicitly. -/
abbrev Cache := List (String × List LItem)

/-- `itemsCache.get` / `itemsCache.has`. -/
def cacheLookup (cache : Cache) (key : String) : Option (List LItem) :=
  cache.lookup key

/-- `itemsCache.set`: point overwrite. -/
def cacheSet (cache : Cache) (key : String) (v : List LItem) : Cache :=
  (key, v) :: cache.filter (fun p => !(p.1 == key))

/-- What terminated the pagination loop abnormally: the explicit
`throw new Error("Operation aborted")` at the cancellation check, or an error
rethrown by `fetchItemsBatch`. -/
inductive LoopError where
  | aborted
  | batchError
  deriving DecidableEq, Repr

/-- The `while (batchCount < maxBatches)` loop of `fetchItems`, by fuel
recursion with fuel = `maxBatches - batchCount`, so `fuel = 0` is a normal
loop exit at the bound.  Each iteration checks the signal, fetches one batch
(the n-th network call at the current cursor), appends the items, and stops
when the batch reports `hasMore = false` or is empty, else recurses with the
last item's timestamp as the next cursor.  Returns the loop outcome — the
accumulated items and `batchCount` on normal exit, the abnormal termination
otherwise — paired with the number of network calls the loop made. -/
def fetchLoop (net : Nat → Option Int → NetResult) (abortedAt : Nat → Bool) :
    Nat → Nat → List LItem → Option Int →
    Except LoopError (List LItem × Nat) × Nat
  | 0, batchCount, allItems, _ => (.ok (allItems, batchCount), 0)
  | fuel + 1, batchCount, allItems, lastTimestamp =>
    if abortedAt batchCount then
      (.error .aborted, 0)
    else
      match fetchItemsBatch (net batchCount lastTimestamp) with
      | .thrown => (.error .batchError, 1)
      | .ok items hasMore =>
        let allItems2 := allItems ++ items
        let batchCount2 := batchCount + 1
        if !hasMore || items.length == 0 then
          (.ok (allItems2, batchCount2), 1)
        else
          let lastTimestamp2 := (items.getLast?).map (·.latestRequestSubmissionTime)
          let (res, n) := fetchLoop net abortedAt fuel batchCount2 allItems2 lastTimestamp2
          (res, n + 1)

/-- `fetchItems` return value. -/
structure FetchStats where
  batches : Nat
  total : Nat
  deriving DecidableEq, Repr

/-- `fetchItems` return value. -/
structure FetchResult where
  items : List LItem
  stats : FetchStats
  deriving DecidableEq, Repr

/-- One `fetchItems` run: the value returned to the caller, the cache map
after the run, and how many network calls were actually made (the reported
`stats.batches` is 0 on the degraded error paths even though calls may have
been made, so the two are tracked separately). -/
structure FetchOutcome where
  result : FetchResult
  cache : Cache
  netCalls : Nat
  deriving DecidableEq, Repr

/-- graph.ts `fetchItems`: computes the cache key; unless force-refreshing,
a cache hit returns the cached items with `batches = 0` and no network
activity; otherwise it runs the pagination loop from an empty accumulator and
undefined cursor.  A normal loop exit — including exit at `maxBatches` —
writes the accumulated items into the cache and returns them with the batch
count; the catch-all turns any abnormal termination (the cancellation throw or
a batch error) into the empty result `{items: [], stats: {batches: 0,
total: 0}}` with the cache untouched — never an error to the caller. -/
def fetchItems (net : Nat → Option Int → NetResult) (abortedAt : Nat → Bool)
    (forceRefresh : Bool) (maxBatches : Nat) (chainId : Nat)
    (registryAddress : String) (filters : Option (List (String × List String)))
    (cache : Cache) : FetchOutcome :=
  let cacheKey := generateCacheKey chainId registryAddress filters
  if !forceRefresh && (cacheLookup cache cacheKey).isSome then
    let cachedItems := (cacheLookup cache cacheKey).getD []
    { result := { items := cachedItems
                  stats := { batches := 0, total := cachedItems.length } }
      cache := cache
      netCalls := 0 }
  else
    match fetchLoop net abortedAt maxBatches 0 [] none with
    | (.ok (allItems, batchCount), n) =>
      { result := { items := allItems
                    stats := { batches := batchCount, total := allItems.length } }
        cache := cacheSet cache cacheKey allItems
        netCalls := n }
    | (.error _, n) =>
      { result := { items := [], stats := { batches := 0, total := 0 } }
        cache := cache
        netCalls := n }

/-- graph.ts `fetchItemsById`: `fetchItems` with `forceRefresh: true` and
`filters: {itemID}` (a caller-supplied `forceRefresh` is overridden by the
spread order). -/
def fetchItemsById (net : Nat → Option Int → NetResult) (abortedAt : Nat → Bool)
    (maxBatches : Nat) (chainId : Nat) (registryAddress : String)
    (itemID : List String) (cache : Cache) : FetchOutcome :=
  fetchItems net abortedAt true maxBatches chainId registryAddress
    (some [("itemID", itemID)]) cache

/-- graph.ts `fetchItemsByStatus`: `fetchItems` with `forceRefresh: true` and
`filters: {status}`. -/
def fetchItemsByStatus (net : Nat → Option Int → NetResult) (abortedAt : Nat → Bool)
    (maxBatches : Nat) (chainId : Nat) (registryAddress : String)
    (status : List String) (cache : Cache) : FetchOutcome :=
  fetchItems net abortedAt true maxBatches chainId registryAddress
    (some [("status", status)]) cache

/-- graph.ts `clearItemsCache`: no arguments clears everything; both a
registry address and a chain id delete the one matching key; anything else is
a no-op. -/
def clearItemsCache (registryAddress : Option String) (chainId : Option Nat)
    (filters : Option (List (String × List String))) (cache : Cache) : Cache :=
  match registryAddress, chainId, filters with
  | none, none, none => []
  | some addr, some cid, f =>
    cache.filter (fun p => !(p.1 == generateCacheKey cid addr f))
  | _, _, _ => cache

/-! ## Claims about the financial calculation engine -/

/-- Cast form of the clamping step: the stored remaining amount is exactly
`max 0 (fee - paid)` over the integers. -/
theorem clampRemaining_cast (feeWei paidWei : Nat) :
    (clampRemaining feeWei paidWei : Int)
      = max 0 ((feeWei : Int) - (paidWei : Int)) := by
  unfold clampRemaining
  by_cases h : (0 : Int) < (feeWei : Int) - (paidWei : Int)
  · rw [if_pos h, Int.toNat_of_nonneg h.le, max_eq_right h.le]
  · rw [if_neg h, max_eq_left (not_lt.mp h)]
    simp

/-- C1: for every `currentRuling` in {None = 0, Accept = 1, Reject = 2} and all
non-negative `appealCost` and multiplier values, `getAppealCost` returns for
each side a base-unit fee equal to
`appealCost + floor(appealCost * multiplier / 10000)`, where the multiplier is
`sharedStakeMultiplier` for both sides under ruling None,
`winnerStakeMultiplier` for the winning side (the requester under Accept, the
challenger under Reject) and `loserStakeMultiplier` for the losing side, the
multiplication performed before the truncating division in arbitrary-precision
integers (`Nat` multiplication, then floor division). -/
theorem getAppealCost_fee_formula (d : DisputeInfo)
    (hd : d.disputed = true) (hr : d.ruling < 3) :
    getAppealCost d = Except.ok
      { requesterAppealFeeWei := d.appealCostWei +
          d.appealCostWei *
            (if d.ruling = 0 then d.sharedStakeMultiplier
             else if d.ruling = 1 then d.winnerStakeMultiplier
             else d.loserStakeMultiplier) / 10000
        challengerAppealFeeWei := d.appealCostWei +
          d.appealCostWei *
            (if d.ruling = 0 then d.sharedStakeMultiplier
             else if d.ruling = 1 then d.loserStakeMultiplier
             else d.winnerStakeMultiplier) / 10000
        currentRuling := d.ruling } := by
  have h3 : d.ruling = 0 ∨ d.ruling = 1 ∨ d.ruling = 2 := by omega
  rcases h3 with h | h | h <;>
    simp [getAppealCost, MULTIPLIER_DIVISOR, hd, h]

/-- Witness for C1 at the overflow case demanded by the spec:
`appealCost = 10^24`, shared multiplier 5000, ruling None; the product
`10^24 * 5000` exceeds `2^64`, and each side's fee is
`10^24 + 10^24 * 5000 / 10000 = 1.5 * 10^24`. -/
theorem getAppealCost_fee_formula_witness :
    getAppealCost ⟨true, 0, 2, 10 ^ 24, 5000, 3000, 7000⟩ =
      Except.ok ⟨10 ^ 24 + 10 ^ 24 * 5000 / 10000,
                 10 ^ 24 + 10 ^ 24 * 5000 / 10000, 0⟩
    ∧ 2 ^ 64 < 10 ^ 24 * 5000 := by
  constructor
  · have h := getAppealCost_fee_formula ⟨true, 0, 2, 10 ^ 24, 5000, 3000, 7000⟩
      rfl (by decide)
    simpa using h
  · norm_num

/-- C4: whenever `getAppealCost` succeeds (in particular the request is
disputed), `getAppealFundingStatus` succeeds and reports, for each side, a
remaining-to-fund amount equal to `max 0 (requiredFee - alreadyPaid)` — never
negative even when the side overpaid — and a `roundIndex` equal to
`numberOfRounds - 1`. -/
theorem getAppealFundingStatus_remaining_clamped (d : DisputeInfo)
    (round : RoundInfo) (costs : AppealCostResult)
    (h : getAppealCost d = Except.ok costs) :
    ∃ st, getAppealFundingStatus d round = Except.ok st ∧
      (st.requesterRemainingToFundWei : Int)
        = max 0 ((costs.requesterAppealFeeWei : Int)
            - (round.amountPaidRequesterWei : Int)) ∧
      (st.challengerRemainingToFundWei : Int)
        = max 0 ((costs.challengerAppealFeeWei : Int)
            - (round.amountPaidChallengerWei : Int)) ∧
      st.roundIndex = (d.numberOfRounds : Int) - 1 := by
  have hd : d.disputed = true := by
    cases hdis : d.disputed
    · rw [getAppealCost, hdis] at h
      simp at h
    · rfl
  have hstatus : getAppealFundingStatus d round = Except.ok
      { requesterFunded := round.hasPaidRequester
        challengerFunded := round.hasPaidChallenger
        requesterAmountPaidWei := round.amountPaidRequesterWei
        challengerAmountPaidWei := round.amountPaidChallengerWei
        requesterRemainingToFundWei :=
          clampRemaining costs.requesterAppealFeeWei round.amountPaidRequesterWei
        challengerRemainingToFundWei :=
          clampRemaining costs.challengerAppealFeeWei round.amountPaidChallengerWei
        appealed := round.appealed
        currentRuling := d.ruling
        roundIndex := (d.numberOfRounds : Int) - 1 } := by
    simp [getAppealFundingStatus, hd, h]
  exact ⟨_, hstatus, clampRemaining_cast _ _, clampRemaining_cast _ _, rfl⟩

/-- Witness for C4 with an overpaying requester: fees are 1500 wei per side,
the requester already paid 2000 (overpayment, remaining clamps to 0), the
challenger paid 400 (remaining 1100), and `roundIndex = 3 - 1`. -/
theorem getAppealFundingStatus_remaining_clamped_witness :
    ∃ st, getAppealFundingStatus ⟨true, 0, 3, 1000, 5000, 0, 0⟩
        ⟨2000, 400, false, false, false⟩ = Except.ok st ∧
      (st.requesterRemainingToFundWei : Int) = max 0 ((1500 : Int) - (2000 : Int)) ∧
      (st.challengerRemainingToFundWei : Int) = max 0 ((1500 : Int) - (400 : Int)) ∧
      st.roundIndex = ((3 : Nat) : Int) - 1 := by
  have h := getAppealFundingStatus_remaining_clamped
    ⟨true, 0, 3, 1000, 5000, 0, 0⟩ ⟨2000, 400, false, false, false⟩
    ⟨1500, 1500, 0⟩ rfl
  simpa using h

/-- C2: when the funding status read succeeds and the chosen side (1 =
requester, 2 = challenger) is not yet fully funded (its `hasPaid` flag is
clear and its remaining requirement is positive), `fundAppeal` with an
explicit amount strictly greater than the side's remaining requirement
submits the transaction with a value equal to exactly the remaining
requirement — not the requested amount — and `fundAppeal` with no amount
submits exactly the remaining requirement. -/
theorem fundAppeal_clamps_to_remaining (d : DisputeInfo) (round : RoundInfo)
    (side : Nat) (amount : Nat) (st : FundingStatus)
    (hst : getAppealFundingStatus d round = Except.ok st)
    (hside : side = 1 ∨ side = 2)
    (hflag : (if side = 1 then st.requesterFunded else st.challengerFunded)
      = false)
    (hrem : 0 < (if side = 1 then st.requesterRemainingToFundWei
      else st.challengerRemainingToFundWei))
    (hgt : (if side = 1 then st.requesterRemainingToFundWei
      else st.challengerRemainingToFundWei) < amount) :
    fundAppeal d round side (some amount)
      = Except.ok (if side = 1 then st.requesterRemainingToFundWei
          else st.challengerRemainingToFundWei)
    ∧ fundAppeal d round side none
      = Except.ok (if side = 1 then st.requesterRemainingToFundWei
          else st.challengerRemainingToFundWei) := by
  rcases hside with h | h <;> subst h <;>
    norm_num at hflag hrem hgt ⊢ <;>
    constructor <;>
    simp [fundAppeal, hst, hflag, hgt, Nat.pos_iff_ne_zero.mp hrem]

/-- Witness for C2: fees 1500 per side, requester already paid 600, so the
remaining requirement is 900; funding side 1 with an explicit 5000 wei sends
exactly 900, as does funding with no amount. -/
theorem fundAppeal_clamps_to_remaining_witness :
    fundAppeal ⟨true, 0, 2, 1000, 5000, 0, 0⟩ ⟨600, 0, false, false, false⟩ 1
        (some 5000) = Except.ok 900
    ∧ fundAppeal ⟨true, 0, 2, 1000, 5000, 0, 0⟩ ⟨600, 0, false, false, false⟩ 1
        none = Except.ok 900 := by
  have h := fundAppeal_clamps_to_remaining
    ⟨true, 0, 2, 1000, 5000, 0, 0⟩ ⟨600, 0, false, false, false⟩ 1 5000
    ⟨false, false, 600, 0, 900, 1500, false, 0, 1⟩
    rfl (Or.inl rfl) (by decide) (by decide) (by decide)
  simpa using h

/-- C3: when the funding status read succeeds and the chosen side's remaining
requirement is zero (already fully funded), `fundAppeal` fails with the
already-funded error for every amount argument — no transaction is submitted
(`Except.ok`, which alone carries a submission, is never produced). -/
theorem fundAppeal_already_funded_rejected (d : DisputeInfo) (round : RoundInfo)
    (side : Nat) (amount : Option Nat) (st : FundingStatus)
    (hst : getAppealFundingStatus d round = Except.ok st)
    (hside : side = 1 ∨ side = 2)
    (hrem : (if side = 1 then st.requesterRemainingToFundWei
      else st.challengerRemainingToFundWei) = 0) :
    fundAppeal d round side amount = Except.error TcrError.alreadyFunded := by
  rcases hside with h | h <;> subst h <;> norm_num at hrem <;>
    cases amount with
    | none => simp [fundAppeal, hst, hrem]
    | some a =>
      rcases Nat.eq_zero_or_pos a with ha | ha <;>
        simp [fundAppeal, hst, hrem, ha]

/-- Witness for C3: the requester side is fully funded (paid 1500 of a
1500-wei fee, remaining 0); `fundAppeal` with an explicit 42 wei fails with
the already-funded error. -/
theorem fundAppeal_already_funded_rejected_witness :
    fundAppeal ⟨true, 0, 2, 1000, 5000, 0, 0⟩ ⟨1500, 0, true, false, false⟩ 1
      (some 42) = Except.error TcrError.alreadyFunded :=
  fundAppeal_already_funded_rejected
    ⟨true, 0, 2, 1000, 5000, 0, 0⟩ ⟨1500, 0, true, false, false⟩ 1 (some 42)
    ⟨true, false, 1500, 0, 0, 1500, false, 0, 1⟩
    rfl (Or.inl rfl) (by decide)

/-- C5: for every base deposit and arbitration cost delivered by the contract
reads, `calculateDepositAmount` returns `depositInWei` exactly equal to
`baseDeposit + arbitrationCost` as an unbounded integer sum (`Nat` addition,
no precision loss at any magnitude). -/
theorem calculateDepositAmount_exact_sum :
    ∀ baseDeposit arbitrationCost days : Nat,
      (calculateDepositAmount (some baseDeposit) arbitrationCost days).depositInWei
        = baseDeposit + arbitrationCost :=
  fun _ _ _ => rfl

/-! ## Claims about the item retrieval pipeline -/

/-- Loop exit at the `maxBatches` bound: a normal completion. -/
theorem fetchLoop_zero (net : Nat → Option Int → NetResult) (ab : Nat → Bool)
    (bc : Nat) (acc : List LItem) (cur : Option Int) :
    fetchLoop net ab 0 bc acc cur = (Except.ok (acc, bc), 0) := rfl

/-- One unrolling of the pagination loop body. -/
theorem fetchLoop_succ (net : Nat → Option Int → NetResult) (ab : Nat → Bool)
    (fuel bc : Nat) (acc : List LItem) (cur : Option Int) :
    fetchLoop net ab (fuel + 1) bc acc cur =
      if ab bc then
        (Except.error LoopError.aborted, 0)
      else
        match fetchItemsBatch (net bc cur) with
        | .thrown => (Except.error LoopError.batchError, 1)
        | .ok items hasMore =>
          if !hasMore || items.length == 0 then
            (Except.ok (acc ++ items, bc + 1), 1)
          else
            ((fetchLoop net ab fuel (bc + 1) (acc ++ items)
                ((items.getLast?).map (·.latestRequestSubmissionTime))).1,
             (fetchLoop net ab fuel (bc + 1) (acc ++ items)
                ((items.getLast?).map (·.latestRequestSubmissionTime))).2 + 1) := rfl

/-- A loop iteration that receives exactly `BATCH_SIZE` items continues with
the cursor advanced. -/
theorem fetchLoop_step_full (net : Nat → Option Int → NetResult) (ab : Nat → Bool)
    (fuel bc : Nat) (acc b : List LItem) (cur : Option Int)
    (habc : ab bc = false) (hnet : net bc cur = NetResult.ok b)
    (hfull : b.length = BATCH_SIZE) :
    fetchLoop net ab (fuel + 1) bc acc cur =
      ((fetchLoop net ab fuel (bc + 1) (acc ++ b)
          ((b.getLast?).map (·.latestRequestSubmissionTime))).1,
       (fetchLoop net ab fuel (bc + 1) (acc ++ b)
          ((b.getLast?).map (·.latestRequestSubmissionTime))).2 + 1) := by
  rw [fetchLoop_succ, habc, hnet]
  simp [fetchItemsBatch, hfull, BATCH_SIZE]

/-- A loop iteration that receives fewer (or more) than `BATCH_SIZE` items is
the last one: the loop stops with the accumulated items. -/
theorem fetchLoop_step_last (net : Nat → Option Int → NetResult) (ab : Nat → Bool)
    (fuel bc : Nat) (acc b : List LItem) (cur : Option Int)
    (habc : ab bc = false) (hnet : net bc cur = NetResult.ok b)
    (hlast : b.length ≠ BATCH_SIZE) :
    fetchLoop net ab (fuel + 1) bc acc cur
      = (Except.ok (acc ++ b, bc + 1), 1) := by
  rw [fetchLoop_succ, habc, hnet]
  simp [fetchItemsBatch, hlast]

/-- `itemsCache.set` followed by a lookup of the same key yields the stored
value. -/
theorem cacheLookup_cacheSet_self (cache : Cache) (k : String) (v : List LItem) :
    cacheLookup (cacheSet cache k v) k = some v := by
  simp [cacheLookup, cacheSet, List.lookup]

/-- The cache-hit path of `fetchItems`: no force refresh and a cached entry
give the cached items back with zero batches, zero network calls and an
unchanged cache. -/
theorem fetchItems_cache_hit (net : Nat → Option Int → NetResult)
    (ab : Nat → Bool) (mb chainId : Nat) (reg : String)
    (filters : Option (List (String × List String))) (cache : Cache)
    (l : List LItem)
    (hl : cacheLookup cache (generateCacheKey chainId reg filters) = some l) :
    fetchItems net ab false mb chainId reg filters cache =
      { result := { items := l, stats := { batches := 0, total := l.length } }
        cache := cache
        netCalls := 0 } := by
  simp [fetchItems, hl]

/-- The cache-miss (or force-refresh) path of `fetchItems` when the pagination
loop completes normally: the items are returned with the batch count and
written into the cache. -/
theorem fetchItems_loop_ok (net : Nat → Option Int → NetResult)
    (ab : Nat → Bool) (fr : Bool) (mb chainId : Nat) (reg : String)
    (filters : Option (List (String × List String))) (cache : Cache)
    (its : List LItem) (bc n : Nat)
    (hmiss : fr = true ∨
      cacheLookup cache (generateCacheKey chainId reg filters) = none)
    (h : fetchLoop net ab mb 0 [] none = (Except.ok (its, bc), n)) :
    fetchItems net ab fr mb chainId reg filters cache =
      { result := { items := its, stats := { batches := bc, total := its.length } }
        cache := cacheSet cache (generateCacheKey chainId reg filters) its
        netCalls := n } := by
  rcases hmiss with h2 | h2 <;> simp [fetchItems, h2, h]

/-- The cache-miss (or force-refresh) path of `fetchItems` when the pagination
loop terminates abnormally: the degraded empty result, with the cache
untouched. -/
theorem fetchItems_loop_error (net : Nat → Option Int → NetResult)
    (ab : Nat → Bool) (fr : Bool) (mb chainId : Nat) (reg : String)
    (filters : Option (List (String × List String))) (cache : Cache)
    (e : LoopError) (n : Nat)
    (hmiss : fr = true ∨
      cacheLookup cache (generateCacheKey chainId reg filters) = none)
    (h : fetchLoop net ab mb 0 [] none = (Except.error e, n)) :
    fetchItems net ab fr mb chainId reg filters cache =
      { result := { items := [], stats := { batches := 0, total := 0 } }
        cache := cache
        netCalls := n } := by
  rcases hmiss with h2 | h2 <;> simp [fetchItems, h2, h]

/-- C6: when a first `fetchItems` call over `(chainId, registryAddress,
filters)` runs its pagination loop to normal completion, a second `fetchItems`
call with the identical key arguments and `forceRefresh = false` — whatever
its indexer or abort signal would do — makes zero network calls, reports
`stats.batches = 0`, and returns exactly the item list the first call
returned. -/
theorem fetchItems_cache_roundtrip (net1 net2 : Nat → Option Int → NetResult)
    (ab1 ab2 : Nat → Bool) (fr1 : Bool) (mb1 mb2 chainId : Nat) (reg : String)
    (filters : Option (List (String × List String))) (cache : Cache)
    (items1 : List LItem) (bc1 n1 : Nat) (out1 out2 : FetchOutcome)
    (h1 : fetchLoop net1 ab1 mb1 0 [] none = (Except.ok (items1, bc1), n1))
    (hout1 : fetchItems net1 ab1 fr1 mb1 chainId reg filters cache = out1)
    (hout2 : fetchItems net2 ab2 false mb2 chainId reg filters out1.cache = out2) :
    out2.result.items = out1.result.items
    ∧ out2.result.stats.batches = 0
    ∧ out2.netCalls = 0 := by
  have hcache : cacheLookup out1.cache (generateCacheKey chainId reg filters)
      = some out1.result.items := by
    subst hout1
    by_cases hc : ∃ l, cacheLookup cache (generateCacheKey chainId reg filters)
        = some l ∧ fr1 = false
    · obtain ⟨l, hl, hfr⟩ := hc
      subst hfr
      rw [fetchItems_cache_hit net1 ab1 mb1 chainId reg filters cache l hl]
      exact hl
    · have hmiss : fr1 = true ∨
          cacheLookup cache (generateCacheKey chainId reg filters) = none := by
        cases hfr : fr1
        · right
          cases hl : cacheLookup cache (generateCacheKey chainId reg filters) with
          | none => rfl
          | some l => exact absurd ⟨l, hl, hfr⟩ hc
        · left; rfl
      rw [fetchItems_loop_ok net1 ab1 fr1 mb1 chainId reg filters cache
        items1 bc1 n1 hmiss h1]
      exact cacheLookup_cacheSet_self cache _ items1
  subst hout2
  rw [fetchItems_cache_hit net2 ab2 mb2 chainId reg filters out1.cache _ hcache]
  exact ⟨rfl, rfl, rfl⟩

/-- The first call of the C6 witness scenario: one short batch of one item,
run against an empty cache. -/
def roundtripFirstCall : FetchOutcome :=
  fetchItems (fun _ _ => NetResult.ok [⟨"i1", "Registered", false, 1000⟩])
    (fun _ => false) false 3 1 "0xAbC" none []

/-- The second call of the C6 witness scenario: identical key arguments, an
indexer that would throw if consulted, run on the cache the first call left. -/
def roundtripSecondCall : FetchOutcome :=
  fetchItems (fun _ _ => NetResult.thrownError) (fun _ => false) false 2 1
    "0xAbC" none roundtripFirstCall.cache

/-- Witness for C6: after the first call completes, a second identical call
returns the same items with zero batches and zero network calls, although its
own indexer would throw on any contact. -/
theorem fetchItems_cache_roundtrip_witness :
    roundtripSecondCall.result.items = roundtripFirstCall.result.items
    ∧ roundtripSecondCall.result.stats.batches = 0
    ∧ roundtripSecondCall.netCalls = 0 :=
  fetchItems_cache_roundtrip
    (fun _ _ => NetResult.ok [⟨"i1", "Registered", false, 1000⟩])
    (fun _ _ => NetResult.thrownError) (fun _ => false) (fun _ => false)
    false 3 2 1 "0xAbC" none []
    [⟨"i1", "Registered", false, 1000⟩] 1 1
    roundtripFirstCall roundtripSecondCall rfl rfl rfl

/-- C7: against an indexer that answers the first and second batch calls with
exactly `BATCH_SIZE` items and the third with a different (smaller) count,
a non-cancelled `fetchItems` with a cache miss and at least three batches
allowed issues exactly 3 network calls, reports `stats.batches = 3`, and
returns the three batches concatenated in order; and in general
`fetchItemsBatch` reports `hasMore = (items.length == BATCH_SIZE)`. -/
theorem fetchItems_pagination_three_batches (net : Nat → Option Int → NetResult)
    (ab : Nat → Bool) (mb chainId : Nat) (reg : String)
    (filters : Option (List (String × List String))) (cache : Cache)
    (b1 b2 b3 : List LItem)
    (hab : ∀ n, ab n = false)
    (h0 : ∀ c, net 0 c = NetResult.ok b1)
    (h1 : ∀ c, net 1 c = NetResult.ok b2)
    (h2 : ∀ c, net 2 c = NetResult.ok b3)
    (l1 : b1.length = BATCH_SIZE) (l2 : b2.length = BATCH_SIZE)
    (l3 : b3.length < BATCH_SIZE)
    (hmb : 3 ≤ mb)
    (hmiss : cacheLookup cache (generateCacheKey chainId reg filters) = none) :
    (fetchItems net ab false mb chainId reg filters cache).netCalls = 3
    ∧ (fetchItems net ab false mb chainId reg filters cache).result.items
        = b1 ++ b2 ++ b3
    ∧ (fetchItems net ab false mb chainId reg filters cache).result.stats.batches = 3
    ∧ (∀ its : List LItem,
        fetchItemsBatch (NetResult.ok its) = .ok its (its.length == BATCH_SIZE)) := by
  obtain ⟨k, rfl⟩ : ∃ k, mb = k + 3 := ⟨mb - 3, by omega⟩
  have hloop : fetchLoop net ab (k + 3) 0 [] none
      = (Except.ok (b1 ++ b2 ++ b3, 3), 3) := by
    have hk1 : k + 3 = k + 2 + 1 := by omega
    have hk2 : k + 2 = k + 1 + 1 := by omega
    rw [hk1, fetchLoop_step_full net ab (k + 2) 0 [] b1 none (hab 0) (h0 none) l1]
    rw [hk2, fetchLoop_step_full net ab (k + 1) _ _ b2 _ (hab _) (h1 _) l2]
    rw [fetchLoop_step_last net ab k _ _ b3 _ (hab _) (h2 _) (Nat.ne_of_lt l3)]
    simp
  rw [fetchItems_loop_ok net ab false (k + 3) chainId reg filters cache
    (b1 ++ b2 ++ b3) 3 3 (Or.inr hmiss) hloop]
  exact ⟨rfl, rfl, rfl, fun _ => rfl⟩

/-- First mocked batch for the C7 witness: exactly `BATCH_SIZE` items. -/
def fullBatchA : List LItem := List.replicate 1000 ⟨"a", "Registered", false, 900⟩

/-- Second mocked batch for the C7 witness: exactly `BATCH_SIZE` items. -/
def fullBatchB : List LItem := List.replicate 1000 ⟨"b", "Registered", false, 800⟩

/-- Third mocked batch for the C7 witness: fewer than `BATCH_SIZE` items. -/
def shortBatchC : List LItem := [⟨"c", "Registered", false, 700⟩]

/-- The mocked indexer of the C7 witness, keyed by call number. -/
def threeBatchNet : Nat → Option Int → NetResult := fun n _ =>
  if n = 0 then .ok fullBatchA else if n = 1 then .ok fullBatchB else .ok shortBatchC

/-- Witness for C7: with the mocked three-batch indexer, `fetchItems` makes
exactly 3 network calls and concatenates the batches in order. -/
theorem fetchItems_pagination_three_batches_witness :
    (fetchItems threeBatchNet (fun _ => false) false 9 1 "0xAbC" none []).netCalls = 3
    ∧ (fetchItems threeBatchNet (fun _ => false) false 9 1 "0xAbC" none []).result.items
        = fullBatchA ++ fullBatchB ++ shortBatchC
    ∧ (fetchItems threeBatchNet (fun _ => false) false 9 1 "0xAbC" none
        []).result.stats.batches = 3
    ∧ (∀ its : List LItem,
        fetchItemsBatch (NetResult.ok its) = .ok its (its.length == BATCH_SIZE)) :=
  fetchItems_pagination_three_batches threeBatchNet (fun _ => false) 9 1 "0xAbC"
    none [] fullBatchA fullBatchB shortBatchC
    (fun _ => rfl) (fun _ => rfl) (fun _ => rfl) (fun _ => rfl)
    (by rw [fullBatchA, List.length_replicate]; rfl)
    (by rw [fullBatchB, List.length_replicate]; rfl)
    (by decide) (by norm_num) rfl

/-- C8: a `fetchItems` call whose abort signal is already set before the first
batch and whose cache lookup misses returns
`{items := [], stats := {batches := 0, total := 0}}` and makes zero network
calls.  Cancellation is checked before each batch (the loop head) and is not
surfaced to the caller as an error: `fetchItems` is a total function into
`FetchOutcome`, and the abnormal loop exit degrades to this empty result. -/
theorem fetchItems_aborted_is_silent_empty (net : Nat → Option Int → NetResult)
    (ab : Nat → Bool) (fr : Bool) (mb chainId : Nat) (reg : String)
    (filters : Option (List (String × List String))) (cache : Cache)
    (hmiss : cacheLookup cache (generateCacheKey chainId reg filters) = none)
    (hab : ab 0 = true) :
    (fetchItems net ab fr mb chainId reg filters cache).result
      = { items := [], stats := { batches := 0, total := 0 } }
    ∧ (fetchItems net ab fr mb chainId reg filters cache).netCalls = 0 := by
  cases mb with
  | zero =>
    rw [fetchItems_loop_ok net ab fr 0 chainId reg filters cache [] 0 0
      (Or.inr hmiss) rfl]
    exact ⟨rfl, rfl⟩
  | succ m =>
    have h : fetchLoop net ab (m + 1) 0 [] none
        = (Except.error LoopError.aborted, 0) := by
      rw [fetchLoop_succ, hab]
      simp
    rw [fetchItems_loop_error net ab fr (m + 1) chainId reg filters cache
      LoopError.aborted 0 (Or.inr hmiss) h]
    exact ⟨rfl, rfl⟩

/-- Witness for C8: signal set from the start, an indexer that would throw if
consulted; the result is the silent empty one and no network call happens. -/
theorem fetchItems_aborted_is_silent_empty_witness :
    (fetchItems (fun _ _ => NetResult.thrownError) (fun _ => true) false 7 1
        "0xAbC" none []).result
      = { items := [], stats := { batches := 0, total := 0 } }
    ∧ (fetchItems (fun _ _ => NetResult.thrownError) (fun _ => true) false 7 1
        "0xAbC" none []).netCalls = 0 :=
  fetchItems_aborted_is_silent_empty (fun _ _ => NetResult.thrownError)
    (fun _ => true) false 7 1 "0xAbC" none [] rfl rfl

/-- C9 counterexample: `fetchItemsById` does write a cache entry.  With an
indexer returning one empty batch, a call on an empty cache leaves behind the
entry keyed by the id filter — the cache does contain an entry written by that
call, refuting "they do not themselves cache". -/
theorem fetchItemsById_caches_counterexample :
    cacheLookup
      (fetchItemsById (fun _ _ => NetResult.ok []) (fun _ => false) 5 1 "0xAbC"
        ["i1"] []).cache
      (generateCacheKey 1 "0xAbC" (some [("itemID", ["i1"])])) = some [] := by
  rfl

/-- C9 amended: `fetchItemsById` and `fetchItemsByStatus` always bypass the
cache read (`forceRefresh` is forced to `true`): their result is computed from
fresh batch calls and is the same whatever the cache holds; but they do cache
— on normal completion of the pagination loop the underlying `fetchItems`
writes the fetched items under the id/status filter key. -/
theorem fetchItemsById_bypasses_read_but_writes (net : Nat → Option Int → NetResult)
    (ab : Nat → Bool) (mb chainId : Nat) (reg : String)
    (ids sts : List String) (cache : Cache) (its : List LItem) (bc n : Nat)
    (h : fetchLoop net ab mb 0 [] none = (Except.ok (its, bc), n)) :
    (fetchItemsById net ab mb chainId reg ids cache).result
        = (fetchItemsById net ab mb chainId reg ids []).result
    ∧ cacheLookup (fetchItemsById net ab mb chainId reg ids cache).cache
        (generateCacheKey chainId reg (some [("itemID", ids)])) = some its
    ∧ (fetchItemsByStatus net ab mb chainId reg sts cache).result
        = (fetchItemsByStatus net ab mb chainId reg sts []).result
    ∧ cacheLookup (fetchItemsByStatus net ab mb chainId reg sts cache).cache
        (generateCacheKey chainId reg (some [("status", sts)])) = some its := by
  have w1 := fetchItems_loop_ok net ab true mb chainId reg
    (some [("itemID", ids)]) cache its bc n (Or.inl rfl) h
  have w2 := fetchItems_loop_ok net ab true mb chainId reg
    (some [("itemID", ids)]) [] its bc n (Or.inl rfl) h
  have w3 := fetchItems_loop_ok net ab true mb chainId reg
    (some [("status", sts)]) cache its bc n (Or.inl rfl) h
  have w4 := fetchItems_loop_ok net ab true mb chainId reg
    (some [("status", sts)]) [] its bc n (Or.inl rfl) h
  refine ⟨?_, ?_, ?_, ?_⟩ <;>
    simp [fetchItemsById, fetchItemsByStatus, w1, w2, w3, w4,
      cacheLookup_cacheSet_self]

/-- Witness for C9 (amended): one empty batch; both wrappers return the same
result they would on an empty cache and leave the filter-keyed entry behind. -/
theorem fetchItemsById_bypasses_read_but_writes_witness :
    (fetchItemsById (fun _ _ => NetResult.ok []) (fun _ => false) 5 1 "0xAbC"
        ["i1"] [("z", [])]).result
      = (fetchItemsById (fun _ _ => NetResult.ok []) (fun _ => false) 5 1 "0xAbC"
        ["i1"] []).result
    ∧ cacheLookup
        (fetchItemsById (fun _ _ => NetResult.ok []) (fun _ => false) 5 1 "0xAbC"
          ["i1"] [("z", [])]).cache
        (generateCacheKey 1 "0xAbC" (some [("itemID", ["i1"])])) = some []
    ∧ (fetchItemsByStatus (fun _ _ => NetResult.ok []) (fun _ => false) 5 1
        "0xAbC" ["Registered"] [("z", [])]).result
      = (fetchItemsByStatus (fun _ _ => NetResult.ok []) (fun _ => false) 5 1
        "0xAbC" ["Registered"] []).result
    ∧ cacheLookup
        (fetchItemsByStatus (fun _ _ => NetResult.ok []) (fun _ => false) 5 1
          "0xAbC" ["Registered"] [("z", [])]).cache
        (generateCacheKey 1 "0xAbC" (some [("status", ["Registered"])])) = some [] :=
  fetchItemsById_bypasses_read_but_writes (fun _ _ => NetResult.ok [])
    (fun _ => false) 5 1 "0xAbC" ["i1"] ["Registered"] [("z", [])] [] 1 1 rfl

/-- C10: a `fetchItems` call whose pagination loop terminates abnormally —
cancellation at the between-batch check or a batch-level error — leaves the
cache unchanged; a loop that runs to normal completion (including stopping at
`maxBatches`), on a cache miss or force refresh, writes exactly the
accumulated items under the call's key. -/
theorem fetchItems_cache_write_only_on_completion
    (net : Nat → Option Int → NetResult) (ab : Nat → Bool) (fr : Bool)
    (mb chainId : Nat) (reg : String)
    (filters : Option (List (String × List String))) (cache : Cache) :
    ((∃ e n, fetchLoop net ab mb 0 [] none = (Except.error e, n)) →
      (fetchItems net ab fr mb chainId reg filters cache).cache = cache)
    ∧ (∀ its bc n,
        fetchLoop net ab mb 0 [] none = (Except.ok (its, bc), n) →
        (fr = true ∨
          cacheLookup cache (generateCacheKey chainId reg filters) = none) →
        (fetchItems net ab fr mb chainId reg filters cache).cache
          = cacheSet cache (generateCacheKey chainId reg filters) its) := by
  constructor
  · rintro ⟨e, n, h⟩
    cases hc : (!fr && (cacheLookup cache
        (generateCacheKey chainId reg filters)).isSome) <;>
      simp [fetchItems, hc, h]
  · intro its bc n h hmiss
    rw [fetchItems_loop_ok net ab fr mb chainId reg filters cache its bc n hmiss h]

/-- Witness for C10: a batch error at the first call leaves a pre-existing
foreign cache entry untouched; a normally completed run writes its key. -/
theorem fetchItems_cache_write_only_on_completion_witness :
    (fetchItems (fun _ _ => NetResult.thrownError) (fun _ => false) false 4 1
        "0xAbC" none [("2-0xdef", [])]).cache = [("2-0xdef", [])]
    ∧ (fetchItems (fun _ _ => NetResult.ok []) (fun _ => false) true 4 1
        "0xAbC" none []).cache
      = cacheSet [] (generateCacheKey 1 "0xAbC" none) [] :=
  ⟨(fetchItems_cache_write_only_on_completion (fun _ _ => NetResult.thrownError)
      (fun _ => false) false 4 1 "0xAbC" none [("2-0xdef", [])]).1
    ⟨LoopError.batchError, 1, rfl⟩,
   (fetchItems_cache_write_only_on_completion (fun _ _ => NetResult.ok [])
      (fun _ => false) true 4 1 "0xAbC" none []).2 [] 1 1 rfl (Or.inl rfl)⟩

end LightCurate
